import Mathlib

/-!
Verification development for `drivers/hid/hid-nintendo-wiiu.c`, the HID
report decoder of the Nintendo Wii U gamepad (DRC) driver.

The central function `wiiu_hid_event(hdev, report, data, len)` is a pure
decoder followed by a fan-out of input events to three input devices
(joypad, touchscreen, accelerometer block).  We embed it shallowly:

* the raw buffer `u8 *data` becomes a byte stream `d : Nat → Nat`, each
  read reduced mod 256 (the `u8` type of the array elements);
* every `input_report_key`, `input_report_abs` and `input_sync` call is
  recorded, in program order, as an element of a trace `List Ev`;
* the function result is `Except Int (List Ev)`: `-EINVAL` on a wrong
  length (in which case the C code returns before any event is issued),
  otherwise the full trace together with the `0` success return.

C arithmetic is mapped to `Nat`/`Int` arithmetic with explicit
truncations: `toS16`/`toS32` model the conversions to `s16` and to the
32-bit `int`, and the arithmetic right shift `x >> 8` of a 32-bit signed
value is floor division by 256 (`Int.fdiv`).
-/

namespace WiiU

/-- Read of `data[i]`: elements of the `u8` buffer are values mod 256. -/
def byte (d : Nat → Nat) (i : Nat) : Nat := d i % 256

/-! Constants from the top of `hid-nintendo-wiiu.c`; `BIT(n)` is `1 << n`. -/

def STICK_MIN : Int := 900
def STICK_MAX : Int := 3200
def NUM_STICK_AXES : Nat := 4
def VOLUME_MIN : Int := 0
def VOLUME_MAX : Int := 255

def BUTTON_HOME : Nat := 1 <<< 1
def BUTTON_MINUS : Nat := 1 <<< 2
def BUTTON_PLUS : Nat := 1 <<< 3
def BUTTON_R : Nat := 1 <<< 4
def BUTTON_L : Nat := 1 <<< 5
def BUTTON_ZR : Nat := 1 <<< 6
def BUTTON_ZL : Nat := 1 <<< 7
def BUTTON_DOWN : Nat := 1 <<< 8
def BUTTON_UP : Nat := 1 <<< 9
def BUTTON_RIGHT : Nat := 1 <<< 10
def BUTTON_LEFT : Nat := 1 <<< 11
def BUTTON_Y : Nat := 1 <<< 12
def BUTTON_X : Nat := 1 <<< 13
def BUTTON_B : Nat := 1 <<< 14
def BUTTON_A : Nat := 1 <<< 15
def BUTTON_TV : Nat := 1 <<< 21
def BUTTON_R3 : Nat := 1 <<< 22
def BUTTON_L3 : Nat := 1 <<< 23
def BUTTON_POWER : Nat := 1 <<< 25

def NUM_TOUCH_POINTS : Nat := 10
def MAX_TOUCH_RES : Nat := 1 <<< 12
def TOUCH_BORDER_X : Nat := 100
def TOUCH_BORDER_Y : Nat := 200

def EINVAL : Int := 22

/-- The three input devices allocated by the driver (`struct drc`). -/
inductive Dev
  | joy
  | touch
  | accel
deriving DecidableEq

/-- Linux key codes used by the driver (as abstract labels). -/
inductive KeyCode
  | BTN_DPAD_RIGHT
  | BTN_DPAD_DOWN
  | BTN_DPAD_LEFT
  | BTN_DPAD_UP
  | BTN_EAST
  | BTN_SOUTH
  | BTN_NORTH
  | BTN_WEST
  | BTN_TL
  | BTN_TL2
  | BTN_TR
  | BTN_TR2
  | BTN_Z
  | BTN_THUMBL
  | BTN_THUMBR
  | BTN_SELECT
  | BTN_START
  | BTN_MODE
  | BTN_DEAD
  | BTN_TOUCH
  | BTN_TOOL_FINGER
deriving DecidableEq

/-- Linux absolute-axis codes used by the driver (as abstract labels). -/
inductive AbsCode
  | ABS_X
  | ABS_Y
  | ABS_Z
  | ABS_RX
  | ABS_RY
  | ABS_RZ
  | ABS_VOLUME
  | ABS_THROTTLE
  | ABS_RUDDER
  | ABS_WHEEL
deriving DecidableEq

/-- One observable call made by `wiiu_hid_event`: `input_report_key`,
`input_report_abs` or `input_sync` on one of the three devices. -/
inductive Ev
  | key (dev : Dev) (code : KeyCode) (value : Nat)
  | abs (dev : Dev) (code : AbsCode) (value : Int)
  | sync (dev : Dev)
deriving DecidableEq

/-- Conversion of a nonnegative C `int` expression to `s16` (two's
complement truncation to 16 bits). -/
def toS16 (n : Nat) : Int :=
  if n % 65536 < 32768 then ((n % 65536 : Nat) : Int)
  else ((n % 65536 : Nat) : Int) - 65536

/-- Truncation of a nonnegative value into a signed 32-bit `int` (two's
complement truncation to 32 bits). -/
def toS32 (n : Nat) : Int :=
  if n % 4294967296 < 2147483648 then ((n % 4294967296 : Nat) : Int)
  else ((n % 4294967296 : Nat) : Int) - 4294967296

/-- `buttons = (data[4] << 24) | (data[80] << 16) | (data[2] << 8) | data[3]`. -/
def buttons (d : Nat → Nat) : Nat :=
  (byte d 4 <<< 24) ||| (byte d 80 <<< 16) ||| (byte d 2 <<< 8) ||| byte d 3

/-- `s16 val = (data[7 + 2*i] << 8) | data[6 + 2*i]` (before clamping),
as the raw 16-bit pattern. -/
def stickRaw (d : Nat → Nat) (i : Nat) : Nat :=
  (byte d (7 + 2 * i) <<< 8) ||| byte d (6 + 2 * i)

/-- `val = clamp(val, (s16)STICK_MIN, (s16)STICK_MAX)`; the kernel
`clamp(v, lo, hi)` is `min(max(v, lo), hi)`. -/
def stickVal (d : Nat → Nat) (i : Nat) : Int :=
  min (max (toS16 (stickRaw d i)) STICK_MIN) STICK_MAX

/-- X sample of touch record `i`:
`((data[base + 1] & 0xF) << 8) | data[base]` with `base = 36 + 4*i`. -/
def touchRawX (d : Nat → Nat) (i : Nat) : Nat :=
  ((byte d (36 + 4 * i + 1) &&& 0xF) <<< 8) ||| byte d (36 + 4 * i)

/-- Y sample of touch record `i`:
`((data[base + 3] & 0xF) << 8) | data[base + 2]` with `base = 36 + 4*i`. -/
def touchRawY (d : Nat → Nat) (i : Nat) : Nat :=
  ((byte d (36 + 4 * i + 3) &&& 0xF) <<< 8) ||| byte d (36 + 4 * i + 2)

/-- The accumulation loop `for (i = 0; i < NUM_TOUCH_POINTS; i++) x += …`. -/
def touchSumX (d : Nat → Nat) : Nat :=
  (List.range NUM_TOUCH_POINTS).foldl (fun acc i => acc + touchRawX d i) 0

/-- The accumulation loop for the Y coordinate. -/
def touchSumY (d : Nat → Nat) : Nat :=
  (List.range NUM_TOUCH_POINTS).foldl (fun acc i => acc + touchRawY d i) 0

/-- `x /= NUM_TOUCH_POINTS` (C `int` division of nonnegative values). -/
def touchX (d : Nat → Nat) : Nat := touchSumX d / NUM_TOUCH_POINTS

/-- `y /= NUM_TOUCH_POINTS` (C `int` division of nonnegative values). -/
def touchY (d : Nat → Nat) : Nat := touchSumY d / NUM_TOUCH_POINTS

/-- The pseudo-pressure reconstruction:
`pressure |= ((data[37] >> 4) & 7) << 0;` and likewise for bytes 39, 41,
43 with shifts 3, 6, 9. -/
def pressure (d : Nat → Nat) : Nat :=
  (((byte d 37 >>> 4) &&& 7) <<< 0) |||
  (((byte d 39 >>> 4) &&& 7) <<< 3) |||
  (((byte d 41 >>> 4) &&& 7) <<< 6) |||
  (((byte d 43 >>> 4) &&& 7) <<< 9)

/-- A 16-bit little-endian signed sensor read:
`(int16_t)((data[lo + 1] << 8) | data[lo])` (accelerometer and
magnetometer axes). -/
def sensor16 (d : Nat → Nat) (lo : Nat) : Int :=
  toS16 ((byte d (lo + 1) <<< 8) ||| byte d lo)

/-- A gyroscope axis:
`x = (data[lo+2] << 24) | (data[lo+1] << 16) | (data[lo] << 8)` stored
in a 32-bit signed `int`, then published as `x >> 8` (arithmetic shift,
i.e. floor division by 256). -/
def gyroVal (d : Nat → Nat) (lo : Nat) : Int :=
  Int.fdiv (toS32 ((byte d (lo + 2) <<< 24) ||| (byte d (lo + 1) <<< 16) |||
    (byte d lo <<< 8))) 256

/-- The joypad section of `wiiu_hid_event`, lines 108–159: nineteen
`input_report_key` calls, the stick loop (`ABS_X`, `ABS_Y`, `ABS_RX`,
`ABS_RY`), the volume report and the `input_sync`, in program order. -/
def joyEvents (d : Nat → Nat) : List Ev :=
  [Ev.key Dev.joy KeyCode.BTN_DPAD_RIGHT (buttons d &&& BUTTON_RIGHT),
   Ev.key Dev.joy KeyCode.BTN_DPAD_DOWN (buttons d &&& BUTTON_DOWN),
   Ev.key Dev.joy KeyCode.BTN_DPAD_LEFT (buttons d &&& BUTTON_LEFT),
   Ev.key Dev.joy KeyCode.BTN_DPAD_UP (buttons d &&& BUTTON_UP),
   Ev.key Dev.joy KeyCode.BTN_EAST (buttons d &&& BUTTON_A),
   Ev.key Dev.joy KeyCode.BTN_SOUTH (buttons d &&& BUTTON_B),
   Ev.key Dev.joy KeyCode.BTN_NORTH (buttons d &&& BUTTON_X),
   Ev.key Dev.joy KeyCode.BTN_WEST (buttons d &&& BUTTON_Y),
   Ev.key Dev.joy KeyCode.BTN_TL (buttons d &&& BUTTON_L),
   Ev.key Dev.joy KeyCode.BTN_TL2 (buttons d &&& BUTTON_ZL),
   Ev.key Dev.joy KeyCode.BTN_TR (buttons d &&& BUTTON_R),
   Ev.key Dev.joy KeyCode.BTN_TR2 (buttons d &&& BUTTON_ZR),
   Ev.key Dev.joy KeyCode.BTN_Z (buttons d &&& BUTTON_TV),
   Ev.key Dev.joy KeyCode.BTN_THUMBL (buttons d &&& BUTTON_L3),
   Ev.key Dev.joy KeyCode.BTN_THUMBR (buttons d &&& BUTTON_R3),
   Ev.key Dev.joy KeyCode.BTN_SELECT (buttons d &&& BUTTON_MINUS),
   Ev.key Dev.joy KeyCode.BTN_START (buttons d &&& BUTTON_PLUS),
   Ev.key Dev.joy KeyCode.BTN_MODE (buttons d &&& BUTTON_HOME),
   Ev.key Dev.joy KeyCode.BTN_DEAD (buttons d &&& BUTTON_POWER),
   Ev.abs Dev.joy AbsCode.ABS_X (stickVal d 0),
   Ev.abs Dev.joy AbsCode.ABS_Y (stickVal d 1),
   Ev.abs Dev.joy AbsCode.ABS_RX (stickVal d 2),
   Ev.abs Dev.joy AbsCode.ABS_RY (stickVal d 3),
   Ev.abs Dev.joy AbsCode.ABS_VOLUME ((byte d 14 : Nat) : Int),
   Ev.sync Dev.joy]

/-- The touchscreen section of `wiiu_hid_event`, lines 185–195: the
branch on `pressure != 0` and the closing `input_sync`.  On contact the
position is published as `x` and `MAX_TOUCH_RES - y`. -/
def touchEvents (d : Nat → Nat) : List Ev :=
  (if pressure d ≠ 0 then
    [Ev.key Dev.touch KeyCode.BTN_TOUCH 1,
     Ev.key Dev.touch KeyCode.BTN_TOOL_FINGER 1,
     Ev.abs Dev.touch AbsCode.ABS_X ((touchX d : Nat) : Int),
     Ev.abs Dev.touch AbsCode.ABS_Y (((MAX_TOUCH_RES : Nat) : Int) - ((touchY d : Nat) : Int))]
  else
    [Ev.key Dev.touch KeyCode.BTN_TOUCH 0,
     Ev.key Dev.touch KeyCode.BTN_TOOL_FINGER 0]) ++
  [Ev.sync Dev.touch]

/-- The accelerometer/gyroscope/magnetometer section of
`wiiu_hid_event`, lines 198–220, in program order. -/
def accelEvents (d : Nat → Nat) : List Ev :=
  [Ev.abs Dev.accel AbsCode.ABS_X (sensor16 d 15),
   Ev.abs Dev.accel AbsCode.ABS_Y (sensor16 d 17),
   Ev.abs Dev.accel AbsCode.ABS_Z (sensor16 d 19),
   Ev.abs Dev.accel AbsCode.ABS_RX (gyroVal d 21),
   Ev.abs Dev.accel AbsCode.ABS_RY (gyroVal d 24),
   Ev.abs Dev.accel AbsCode.ABS_RZ (gyroVal d 27),
   Ev.abs Dev.accel AbsCode.ABS_THROTTLE (sensor16 d 30),
   Ev.abs Dev.accel AbsCode.ABS_RUDDER (sensor16 d 32),
   Ev.abs Dev.accel AbsCode.ABS_WHEEL (sensor16 d 34),
   Ev.sync Dev.accel]

/-- The full event trace of one successful `wiiu_hid_event` call. -/
def decodeEvents (d : Nat → Nat) : List Ev :=
  joyEvents d ++ touchEvents d ++ accelEvents d

/-- `wiiu_hid_event`: `if (len != 128) return -EINVAL;` and otherwise
the full trace of input events (the C function then returns 0). -/
def wiiu_hid_event (len : Nat) (d : Nat → Nat) : Except Int (List Ev) :=
  if len ≠ 128 then Except.error (-EINVAL) else Except.ok (decodeEvents d)

/-- Range metadata declared by one `input_set_abs_params` call. -/
structure AbsSetup where
  min : Int
  max : Int
  fuzz : Int
  flat : Int
deriving DecidableEq

/-- `input_set_abs_params(input_dev, ABS_X, TOUCH_BORDER_X,
MAX_TOUCH_RES - TOUCH_BORDER_X, 20, 0)` in `drc_setup_touch`. -/
def drc_setup_touch_ABS_X : AbsSetup :=
  ⟨(TOUCH_BORDER_X : Int), ((MAX_TOUCH_RES - TOUCH_BORDER_X : Nat) : Int), 20, 0⟩

/-- `input_set_abs_params(input_dev, ABS_Y, TOUCH_BORDER_Y,
MAX_TOUCH_RES - TOUCH_BORDER_Y, 20, 0)` in `drc_setup_touch`. -/
def drc_setup_touch_ABS_Y : AbsSetup :=
  ⟨(TOUCH_BORDER_Y : Int), ((MAX_TOUCH_RES - TOUCH_BORDER_Y : Nat) : Int), 20, 0⟩

/-! Specification-side definitions, used to compare the code against the
claim wording. -/

/-- Specification-side definition: the 24-bit two's-complement value of
the low 24 bits of `n`, sign-extended. -/
def signed24 (n : Nat) : Int :=
  if n % 16777216 < 8388608 then ((n % 16777216 : Nat) : Int)
  else ((n % 16777216 : Nat) : Int) - 16777216

/-- Specification-side reading of the pressure packing in claim C6: the
four 3-bit sub-fields packed MSB-first in record order, the sub-field of
the earliest contributing record in the most significant 3 bits. -/
def specPressureMSBFirst (d : Nat → Nat) : Nat :=
  (((byte d 37 >>> 4) &&& 7) <<< 9) |||
  (((byte d 39 >>> 4) &&& 7) <<< 6) |||
  (((byte d 41 >>> 4) &&& 7) <<< 3) |||
  (((byte d 43 >>> 4) &&& 7) <<< 0)

/-! Concrete reports used as counterexamples and witnesses. -/

/-- All-zero report (used for the gyroscope boundary case `0`). -/
def dGyroZero : Nat → Nat := fun _ => 0

/-- Report whose gyroscope X field holds `0x7FFFFF` (little endian). -/
def dGyroMaxPos : Nat → Nat := fun i =>
  if i = 21 then 255 else if i = 22 then 255 else if i = 23 then 127 else 0

/-- Report whose gyroscope X field holds `0x800000` (little endian). -/
def dGyroMinNeg : Nat → Nat := fun i => if i = 23 then 128 else 0

/-- Report with all ten raw touch Y samples equal to 2048 and a non-zero
pressure sub-field pattern (`data[37] = 0x10`): byte `39 + 4*i` holds
`0x08` for each record `i`, every other byte is zero. -/
def dC2 : Nat → Nat := fun i =>
  if i = 37 then 16 else if i % 4 = 3 ∧ 39 ≤ i ∧ i ≤ 75 then 8 else 0

/-- Report with only the sub-field of byte 37 non-zero (`data[37] = 0x10`). -/
def dC6 : Nat → Nat := fun i => if i = 37 then 16 else 0

/-- Report with zero touch coordinates but non-zero pressure
(`data[37] = 0x10`). -/
def dC7 : Nat → Nat := fun i => if i = 37 then 16 else 0

/-- Report encoding only "A pressed": `data[2] = 0x80`, so the
reassembled button field is exactly `BUTTON_A`. -/
def dC8 : Nat → Nat := fun i => if i = 2 then 128 else 0

/-- All-zero report (pressure is zero). -/
def dC9 : Nat → Nat := fun _ => 0

/-- The report bytes that feed the joypad outputs: buttons (2, 3, 4,
80), sticks (6–13) and volume (14). -/
def joyBytes : List Nat := [2, 3, 4, 80, 6, 7, 8, 9, 10, 11, 12, 13, 14]

/-- Observation predicate for the joypad endpoint: an event is selected
iff it is a key report with non-zero value on the joypad device, or a
synchronize call on the joypad device. -/
def joyKeyActiveOrSync : Ev → Bool
  | Ev.key dev _ v => dev == Dev.joy && v != 0
  | Ev.sync dev => dev == Dev.joy
  | Ev.abs _ _ _ => false

/-- All-zero report (first report of the C10 witness pair). -/
def dC10a : Nat → Nat := fun _ => 0

/-- Report agreeing with `dC10a` exactly on the joypad bytes and
differing everywhere else. -/
def dC10b : Nat → Nat := fun i => if i ∈ joyBytes then 0 else 7

/-! Helper lemmas. -/

theorem byte_lt (d : Nat → Nat) (i : Nat) : byte d i < 256 :=
  Nat.mod_lt _ (by norm_num)

theorem or_eq_add (n x y : Nat) (hx : 2 ^ n ∣ x) (hy : y < 2 ^ n) :
    x ||| y = x + y := by
  obtain ⟨a, rfl⟩ := hx
  exact (Nat.mul_add_lt_is_or hy a).symm

theorem shiftLeft_or_eq (a b n : Nat) (hb : b < 2 ^ n) :
    (a <<< n) ||| b = a * 2 ^ n + b := by
  rw [Nat.shiftLeft_eq]
  exact or_eq_add n (a * 2 ^ n) b ⟨a, Nat.mul_comm a (2 ^ n)⟩ hb

theorem and_fifteen (x : Nat) : x &&& 15 = x % 16 := by
  have h := Nat.and_pow_two_sub_one_eq_mod x 4
  norm_num at h
  exact h

theorem nibble_high (x : Nat) : (x >>> 4) &&& 7 = x / 16 % 8 := by
  rw [Nat.shiftRight_eq_div_pow]
  have h := Nat.and_pow_two_sub_one_eq_mod (x / 2 ^ 4) 3
  norm_num at h ⊢
  exact h

theorem touchRawX_eq (d : Nat → Nat) (i : Nat) :
    touchRawX d i = byte d (37 + 4 * i) % 16 * 256 + byte d (36 + 4 * i) := by
  unfold touchRawX
  rw [show 36 + 4 * i + 1 = 37 + 4 * i from by omega]
  rw [show (0xF : Nat) = 15 from rfl, and_fifteen]
  rw [shiftLeft_or_eq _ _ 8 (by simpa using byte_lt d (36 + 4 * i))]
  norm_num

theorem touchRawY_eq (d : Nat → Nat) (i : Nat) :
    touchRawY d i = byte d (39 + 4 * i) % 16 * 256 + byte d (38 + 4 * i) := by
  unfold touchRawY
  rw [show 36 + 4 * i + 3 = 39 + 4 * i from by omega,
    show 36 + 4 * i + 2 = 38 + 4 * i from by omega]
  rw [show (0xF : Nat) = 15 from rfl, and_fifteen]
  rw [shiftLeft_or_eq _ _ 8 (by simpa using byte_lt d (38 + 4 * i))]
  norm_num

theorem touchRawX_lt (d : Nat → Nat) (i : Nat) : touchRawX d i < 4096 := by
  rw [touchRawX_eq]
  have h1 := byte_lt d (36 + 4 * i)
  have h2 : byte d (37 + 4 * i) % 16 < 16 := Nat.mod_lt _ (by norm_num)
  omega

theorem touchRawY_lt (d : Nat → Nat) (i : Nat) : touchRawY d i < 4096 := by
  rw [touchRawY_eq]
  have h1 := byte_lt d (38 + 4 * i)
  have h2 : byte d (39 + 4 * i) % 16 < 16 := Nat.mod_lt _ (by norm_num)
  omega

theorem touchSumX_eq (d : Nat → Nat) :
    touchSumX d = touchRawX d 0 + touchRawX d 1 + touchRawX d 2 + touchRawX d 3 +
      touchRawX d 4 + touchRawX d 5 + touchRawX d 6 + touchRawX d 7 +
      touchRawX d 8 + touchRawX d 9 := by
  simp [touchSumX, NUM_TOUCH_POINTS,
    show List.range 10 = [0, 1, 2, 3, 4, 5, 6, 7, 8, 9] from rfl, List.foldl]

theorem touchSumY_eq (d : Nat → Nat) :
    touchSumY d = touchRawY d 0 + touchRawY d 1 + touchRawY d 2 + touchRawY d 3 +
      touchRawY d 4 + touchRawY d 5 + touchRawY d 6 + touchRawY d 7 +
      touchRawY d 8 + touchRawY d 9 := by
  simp [touchSumY, NUM_TOUCH_POINTS,
    show List.range 10 = [0, 1, 2, 3, 4, 5, 6, 7, 8, 9] from rfl, List.foldl]

theorem touchX_le (d : Nat → Nat) : touchX d ≤ 4095 := by
  have h0 := touchRawX_lt d 0; have h1 := touchRawX_lt d 1
  have h2 := touchRawX_lt d 2; have h3 := touchRawX_lt d 3
  have h4 := touchRawX_lt d 4; have h5 := touchRawX_lt d 5
  have h6 := touchRawX_lt d 6; have h7 := touchRawX_lt d 7
  have h8 := touchRawX_lt d 8; have h9 := touchRawX_lt d 9
  unfold touchX NUM_TOUCH_POINTS
  rw [touchSumX_eq]
  omega

theorem touchY_le (d : Nat → Nat) : touchY d ≤ 4095 := by
  have h0 := touchRawY_lt d 0; have h1 := touchRawY_lt d 1
  have h2 := touchRawY_lt d 2; have h3 := touchRawY_lt d 3
  have h4 := touchRawY_lt d 4; have h5 := touchRawY_lt d 5
  have h6 := touchRawY_lt d 6; have h7 := touchRawY_lt d 7
  have h8 := touchRawY_lt d 8; have h9 := touchRawY_lt d 9
  unfold touchY NUM_TOUCH_POINTS
  rw [touchSumY_eq]
  omega

theorem pressure_pack (a b c e : Nat) (ha : a < 8) (hb : b < 8) (hc : c < 8)
    (he : e < 8) :
    (a <<< 0) ||| (b <<< 3) ||| (c <<< 6) ||| (e <<< 9) =
      a + 8 * b + 64 * c + 512 * e := by
  have e0 : a <<< 0 = a := by simp [Nat.shiftLeft_eq]
  have e3 : b <<< 3 = b * 8 := by simp [Nat.shiftLeft_eq]
  have e6 : c <<< 6 = c * 64 := by simp [Nat.shiftLeft_eq]
  have e9 : e <<< 9 = e * 512 := by simp [Nat.shiftLeft_eq]
  rw [e0, e3, e6, e9]
  rw [Nat.lor_comm a (b * 8),
    or_eq_add 3 (b * 8) a ⟨b, by ring⟩ (by omega)]
  rw [Nat.lor_comm _ (c * 64),
    or_eq_add 6 (c * 64) (b * 8 + a) ⟨c, by ring⟩ (by omega)]
  rw [Nat.lor_comm _ (e * 512),
    or_eq_add 9 (e * 512) (c * 64 + (b * 8 + a)) ⟨e, by ring⟩ (by omega)]
  ring

theorem gyro_or_eq (b0 b1 b2 : Nat) (h0 : b0 < 256) (h1 : b1 < 256)
    (h2 : b2 < 256) :
    (b2 <<< 24) ||| (b1 <<< 16) ||| (b0 <<< 8) =
      (b0 + 256 * b1 + 65536 * b2) * 256 := by
  have e0 : b0 <<< 8 = b0 * 256 := by simp [Nat.shiftLeft_eq]
  have e1 : b1 <<< 16 = b1 * 65536 := by simp [Nat.shiftLeft_eq]
  have e2 : (b2 <<< 24) ||| (b1 <<< 16) = b2 * 16777216 + b1 * 65536 := by
    rw [e1, shiftLeft_or_eq b2 (b1 * 65536) 24 (by omega)]
    norm_num
  rw [e2, e0,
    or_eq_add 16 (b2 * 16777216 + b1 * 65536) (b0 * 256)
      ⟨b2 * 256 + b1, by ring⟩ (by omega)]
  ring

theorem toS32_mul256_fdiv (m : Nat) (hm : m < 16777216) :
    Int.fdiv (toS32 (m * 256)) 256 = signed24 m := by
  unfold toS32 signed24
  by_cases hc : m < 8388608
  · rw [if_pos (show m * 256 % 4294967296 < 2147483648 by omega),
      if_pos (show m % 16777216 < 8388608 by omega),
      Nat.mod_eq_of_lt (show m * 256 < 4294967296 by omega),
      Nat.mod_eq_of_lt (show m < 16777216 by omega)]
    rw [show ((m * 256 : Nat) : Int) = ((m : Nat) : Int) * 256 from by push_cast; ring]
    exact Int.mul_fdiv_cancel _ (by norm_num)
  · rw [if_neg (show ¬ m * 256 % 4294967296 < 2147483648 by omega),
      if_neg (show ¬ m % 16777216 < 8388608 by omega),
      Nat.mod_eq_of_lt (show m * 256 < 4294967296 by omega),
      Nat.mod_eq_of_lt (show m < 16777216 by omega)]
    rw [show ((m * 256 : Nat) : Int) - 4294967296 =
      (((m : Nat) : Int) - 16777216) * 256 from by push_cast; ring]
    exact Int.mul_fdiv_cancel _ (by norm_num)

theorem gyroVal_eq (d : Nat → Nat) (lo : Nat) :
    gyroVal d lo =
      signed24 (byte d lo + 256 * byte d (lo + 1) + 65536 * byte d (lo + 2)) := by
  unfold gyroVal
  rw [gyro_or_eq _ _ _ (byte_lt d lo) (byte_lt d (lo + 1)) (byte_lt d (lo + 2))]
  apply toS32_mul256_fdiv
  have hb0 := byte_lt d lo
  have hb1 := byte_lt d (lo + 1)
  have hb2 := byte_lt d (lo + 2)
  omega

/-! Claim theorems. -/

/-- C1: for every input buffer whose length is not exactly 128 bytes,
`wiiu_hid_event` rejects it with `-EINVAL` and produces no event trace
at all: no key, axis or synchronize event reaches any endpoint. -/
theorem C1_wrong_length_rejected : ∀ (len : Nat) (d : Nat → Nat), len ≠ 128 →
    wiiu_hid_event len d = Except.error (-EINVAL) ∧
    ∀ tr : List Ev, wiiu_hid_event len d ≠ Except.ok tr := by
  intro len d h
  refine ⟨by simp [wiiu_hid_event, h], ?_⟩
  intro tr hc
  simp [wiiu_hid_event, h] at hc

/-- C1 witness: a 127-byte buffer is rejected with `-EINVAL`. -/
theorem C1_wrong_length_rejected_witness :
    wiiu_hid_event 127 (fun _ => 0) = Except.error (-EINVAL) :=
  (C1_wrong_length_rejected 127 (fun _ => 0) (by decide)).1

/-- C4: every stick axis value published by the decoder lies in the
closed range `[STICK_MIN, STICK_MAX] = [900, 3200]`; the raw 16-bit
little-endian sample is interpreted as signed and saturated to the
nearest bound when it falls outside the range (never wrapped or
rejected), and the four values `stickVal d 0 … stickVal d 3` are exactly
what the joypad endpoint receives on `ABS_X`, `ABS_Y`, `ABS_RX`,
`ABS_RY`. -/
theorem C4_stick_saturation : ∀ (d : Nat → Nat) (i : Nat),
    (900 ≤ stickVal d i ∧ stickVal d i ≤ 3200) ∧
    stickVal d i = (if toS16 (stickRaw d i) < 900 then 900
      else if 3200 < toS16 (stickRaw d i) then (3200 : Int)
      else toS16 (stickRaw d i)) ∧
    (Ev.abs Dev.joy AbsCode.ABS_X (stickVal d 0) ∈ joyEvents d ∧
     Ev.abs Dev.joy AbsCode.ABS_Y (stickVal d 1) ∈ joyEvents d ∧
     Ev.abs Dev.joy AbsCode.ABS_RX (stickVal d 2) ∈ joyEvents d ∧
     Ev.abs Dev.joy AbsCode.ABS_RY (stickVal d 3) ∈ joyEvents d) := by
  intro d i
  refine ⟨?_, ?_, ?_⟩
  · unfold stickVal STICK_MIN STICK_MAX
    omega
  · unfold stickVal STICK_MIN STICK_MAX
    split_ifs <;> omega
  · refine ⟨?_, ?_, ?_, ?_⟩ <;> simp [joyEvents]

/-- C9: the touchscreen contact keys (`BTN_TOUCH`, `BTN_TOOL_FINGER`)
are reported active (value 1) iff the derived pressure is non-zero;
when pressure is zero both keys are reported released (value 0) and no
position value at all is published on the touchscreen endpoint in that
batch. -/
theorem C9_contact_iff_pressure : ∀ d : Nat → Nat,
    ((Ev.key Dev.touch KeyCode.BTN_TOUCH 1 ∈ touchEvents d ∧
      Ev.key Dev.touch KeyCode.BTN_TOOL_FINGER 1 ∈ touchEvents d) ↔
      pressure d ≠ 0) ∧
    (pressure d = 0 →
      Ev.key Dev.touch KeyCode.BTN_TOUCH 0 ∈ touchEvents d ∧
      Ev.key Dev.touch KeyCode.BTN_TOOL_FINGER 0 ∈ touchEvents d ∧
      ∀ (c : AbsCode) (v : Int), Ev.abs Dev.touch c v ∉ touchEvents d) := by
  intro d
  by_cases hp : pressure d = 0
  · simp [touchEvents, hp]
  · simp [touchEvents, hp]

/-- C9 witness: on the all-zero report the pressure is zero, the
release keys are published and no touch position is published. -/
theorem C9_contact_iff_pressure_witness :
    Ev.key Dev.touch KeyCode.BTN_TOUCH 0 ∈ touchEvents dC9 ∧
    Ev.abs Dev.touch AbsCode.ABS_X 0 ∉ touchEvents dC9 := by
  have h := (C9_contact_iff_pressure dC9).2 (by decide)
  exact ⟨h.1, h.2.2 AbsCode.ABS_X 0⟩

/-- C10: two reports that agree on bytes 2, 3, 4, 80 (buttons), 6–13
(sticks) and 14 (volume) produce identical joypad event lists — no
touch, motion or padding byte influences any joypad output. -/
theorem C10_joypad_noninterference : ∀ d1 d2 : Nat → Nat,
    (∀ i ∈ joyBytes, d1 i = d2 i) → joyEvents d1 = joyEvents d2 := by
  intro d1 d2 h
  have h2 := h 2 (by simp [joyBytes])
  have h3 := h 3 (by simp [joyBytes])
  have h4 := h 4 (by simp [joyBytes])
  have h80 := h 80 (by simp [joyBytes])
  have h6 := h 6 (by simp [joyBytes])
  have h7 := h 7 (by simp [joyBytes])
  have h8 := h 8 (by simp [joyBytes])
  have h9 := h 9 (by simp [joyBytes])
  have h10 := h 10 (by simp [joyBytes])
  have h11 := h 11 (by simp [joyBytes])
  have h12 := h 12 (by simp [joyBytes])
  have h13 := h 13 (by simp [joyBytes])
  have h14 := h 14 (by simp [joyBytes])
  simp only [joyEvents, buttons, stickVal, stickRaw, byte]
  norm_num [h2, h3, h4, h80, h6, h7, h8, h9, h10, h11, h12, h13, h14]

/-- C10 witness: the all-zero report and a report that differs from it
on every byte outside the joypad byte set produce the same joypad
events. -/
theorem C10_joypad_noninterference_witness : joyEvents dC10a = joyEvents dC10b :=
  C10_joypad_noninterference dC10a dC10b (by decide)

/-- C2 counterexample: on a report whose ten raw Y samples are all 2048
and whose pressure pattern is non-zero, the decoder publishes touch
`ABS_Y = 2048` (that is, `4096 − 2048`), not `4095 − 2048 = 2047` as
the claim states. -/
theorem C2_y_inversion_counterexample :
    touchY dC2 = 2048 ∧ pressure dC2 ≠ 0 ∧
    Ev.abs Dev.touch AbsCode.ABS_Y 2048 ∈ decodeEvents dC2 ∧
    Ev.abs Dev.touch AbsCode.ABS_Y 2047 ∉ decodeEvents dC2 := by
  decide

/-- C2 amended: whenever the derived pressure is non-zero the touch Y
coordinate published is `MAX_TOUCH_RES − averaged Y = 4096 − averaged Y`
(not `4095 − averaged Y`); ten records all carrying raw Y = 2048 hence
yield reported Y = 2048. -/
theorem C2_y_inversion : ∀ d : Nat → Nat, pressure d ≠ 0 →
    Ev.abs Dev.touch AbsCode.ABS_Y ((4096 : Int) - ((touchY d : Nat) : Int)) ∈
      decodeEvents d := by
  intro d hp
  have hmem : Ev.abs Dev.touch AbsCode.ABS_Y ((4096 : Int) - ((touchY d : Nat) : Int)) ∈
      touchEvents d := by
    unfold touchEvents
    rw [if_pos hp]
    norm_num [MAX_TOUCH_RES, Nat.shiftLeft_eq]
  unfold decodeEvents
  simp only [List.mem_append]
  exact Or.inl (Or.inr hmem)

/-- C2 witness: the amended inversion law applied to the concrete
all-2048 report publishes `ABS_Y = 2048`. -/
theorem C2_y_inversion_witness :
    Ev.abs Dev.touch AbsCode.ABS_Y 2048 ∈ decodeEvents dC2 := by
  have h := C2_y_inversion dC2 (by decide)
  rwa [show (4096 : Int) - ((touchY dC2 : Nat) : Int) = 2048 from by decide] at h

/-- C3: each gyroscope axis value published equals the 24-bit
two's-complement value of its three little-endian bytes, sign-extended
(`signed24`); the boundary patterns all-zero, `0x7FFFFF` and `0x800000`
decode to 0, 8388607 and −8388608, and the three axis values are what
the motion endpoint receives on `ABS_RX`, `ABS_RY`, `ABS_RZ`. -/
theorem C3_gyro_sign_extension :
    (∀ (d : Nat → Nat) (lo : Nat),
      gyroVal d lo =
        signed24 (byte d lo + 256 * byte d (lo + 1) + 65536 * byte d (lo + 2))) ∧
    gyroVal dGyroZero 21 = 0 ∧
    gyroVal dGyroMaxPos 21 = 8388607 ∧
    gyroVal dGyroMinNeg 21 = -8388608 ∧
    ∀ d : Nat → Nat,
      Ev.abs Dev.accel AbsCode.ABS_RX (gyroVal d 21) ∈ decodeEvents d ∧
      Ev.abs Dev.accel AbsCode.ABS_RY (gyroVal d 24) ∈ decodeEvents d ∧
      Ev.abs Dev.accel AbsCode.ABS_RZ (gyroVal d 27) ∈ decodeEvents d := by
  refine ⟨gyroVal_eq, by decide, by decide, by decide, ?_⟩
  intro d
  refine ⟨?_, ?_, ?_⟩ <;>
    simp [decodeEvents, accelEvents, List.mem_append]

/-- C5: the averaged touch coordinates are the truncating integer mean
of the ten 12-bit raw samples: `touchX` is the sum of the ten low-byte
plus low-nibble-of-following-byte X samples divided by 10 (floor), and
likewise for `touchY`; every raw sample is indeed 12-bit. -/
theorem C5_touch_average : ∀ d : Nat → Nat,
    (touchX d = ((List.range 10).map
        (fun i => byte d (37 + 4 * i) % 16 * 256 + byte d (36 + 4 * i))).sum / 10 ∧
     touchY d = ((List.range 10).map
        (fun i => byte d (39 + 4 * i) % 16 * 256 + byte d (38 + 4 * i))).sum / 10) ∧
    ∀ i : Nat, touchRawX d i < 4096 ∧ touchRawY d i < 4096 := by
  intro d
  refine ⟨⟨?_, ?_⟩, fun i => ⟨touchRawX_lt d i, touchRawY_lt d i⟩⟩
  · unfold touchX NUM_TOUCH_POINTS
    rw [touchSumX_eq]
    simp only [touchRawX_eq, show List.range 10 = [0, 1, 2, 3, 4, 5, 6, 7, 8, 9] from rfl,
      List.map_cons, List.map_nil, List.sum_cons, List.sum_nil]
    norm_num
    omega
  · unfold touchY NUM_TOUCH_POINTS
    rw [touchSumY_eq]
    simp only [touchRawY_eq, show List.range 10 = [0, 1, 2, 3, 4, 5, 6, 7, 8, 9] from rfl,
      List.map_cons, List.map_nil, List.sum_cons, List.sum_nil]
    norm_num
    omega

/-- C6 counterexample: on a report whose only non-zero sub-field is the
high nibble of byte 37 (the earliest contributing byte), the decoder
computes pressure 1 — the sub-field lands in the LEAST significant 3
bits — whereas the claimed MSB-first packing would give 512.  Moreover
bytes 37 and 39 lie in touch record 0 and bytes 41 and 43 in record 1,
so only two of the ten records contribute, not four. -/
theorem C6_pressure_packing_counterexample :
    pressure dC6 = 1 ∧ specPressureMSBFirst dC6 = 512 ∧
    pressure dC6 ≠ specPressureMSBFirst dC6 := by
  decide

/-- C6 amended: the derived pressure is built from the four 3-bit
sub-fields in the high nibbles of bytes 37, 39, 41, 43 (the second and
fourth bytes of the FIRST TWO of the ten touch records), packed
LSB-first in byte order: the earliest contributing byte occupies the
least significant 3 bits. -/
theorem C6_pressure_packing : ∀ d : Nat → Nat,
    pressure d = byte d 37 / 16 % 8 + 8 * (byte d 39 / 16 % 8) +
      64 * (byte d 41 / 16 % 8) + 512 * (byte d 43 / 16 % 8) := by
  intro d
  unfold pressure
  rw [nibble_high, nibble_high, nibble_high, nibble_high]
  exact pressure_pack _ _ _ _ (Nat.mod_lt _ (by norm_num))
    (Nat.mod_lt _ (by norm_num)) (Nat.mod_lt _ (by norm_num))
    (Nat.mod_lt _ (by norm_num))

/-- C7 counterexample: a report with non-zero pressure and all-zero
coordinate bytes publishes touch `ABS_X = 0`, strictly below the
declared axis minimum `TOUCH_BORDER_X = 100` — the published coordinate
is not clamped into the border-exclusion sub-range. -/
theorem C7_touch_clamp_counterexample :
    pressure dC7 ≠ 0 ∧
    Ev.abs Dev.touch AbsCode.ABS_X 0 ∈ decodeEvents dC7 ∧
    (0 : Int) < drc_setup_touch_ABS_X.min := by
  decide

/-- C7 amended: the touchscreen setup declares the border-exclusion
ranges X ∈ [100, 4095−99] and Y ∈ [200, 4095−195] (that is,
[TOUCH_BORDER_X, MAX_TOUCH_RES−TOUCH_BORDER_X] and likewise for Y), but
the decoder publishes the averaged coordinates unclamped: reported X
ranges over [0, 4095] and reported Y over [1, 4096]. -/
theorem C7_touch_ranges : ∀ d : Nat → Nat,
    (drc_setup_touch_ABS_X.min = 100 ∧ drc_setup_touch_ABS_X.max = 3996 ∧
     drc_setup_touch_ABS_Y.min = 200 ∧ drc_setup_touch_ABS_Y.max = 3896) ∧
    touchX d ≤ 4095 ∧ touchY d ≤ 4095 ∧
    (1 : Int) ≤ (4096 : Int) - ((touchY d : Nat) : Int) ∧
    (4096 : Int) - ((touchY d : Nat) : Int) ≤ 4096 := by
  intro d
  have hx := touchX_le d
  have hy := touchY_le d
  refine ⟨by decide, hx, hy, ?_, ?_⟩ <;> omega

/-- C8: on any report whose reassembled 32-bit button field has the
button-A bit set and every other button bit clear, the joypad endpoint
sees exactly one active key — `BTN_EAST`, the key mapped to button A —
with all other keys inactive, followed by exactly one synchronize call
on the joypad device (and no other active joypad key or joypad sync
anywhere in the batch). -/
theorem C8_only_button_A : ∀ d : Nat → Nat,
    buttons d &&& BUTTON_A ≠ 0 →
    (buttons d &&& BUTTON_RIGHT = 0 ∧ buttons d &&& BUTTON_DOWN = 0 ∧
     buttons d &&& BUTTON_LEFT = 0 ∧ buttons d &&& BUTTON_UP = 0 ∧
     buttons d &&& BUTTON_B = 0 ∧ buttons d &&& BUTTON_X = 0 ∧
     buttons d &&& BUTTON_Y = 0 ∧ buttons d &&& BUTTON_L = 0 ∧
     buttons d &&& BUTTON_ZL = 0 ∧ buttons d &&& BUTTON_R = 0 ∧
     buttons d &&& BUTTON_ZR = 0 ∧ buttons d &&& BUTTON_TV = 0 ∧
     buttons d &&& BUTTON_L3 = 0 ∧ buttons d &&& BUTTON_R3 = 0 ∧
     buttons d &&& BUTTON_MINUS = 0 ∧ buttons d &&& BUTTON_PLUS = 0 ∧
     buttons d &&& BUTTON_HOME = 0 ∧ buttons d &&& BUTTON_POWER = 0) →
    (decodeEvents d).filter joyKeyActiveOrSync =
      [Ev.key Dev.joy KeyCode.BTN_EAST (buttons d &&& BUTTON_A),
       Ev.sync Dev.joy] := by
  intro d hA hrest
  obtain ⟨e1, e2, e3, e4, e5, e6, e7, e8, e9, e10, e11, e12, e13, e14,
    e15, e16, e17, e18⟩ := hrest
  unfold decodeEvents
  rw [List.filter_append, List.filter_append]
  have ht : (touchEvents d).filter joyKeyActiveOrSync = [] := by
    unfold touchEvents
    by_cases hp : pressure d ≠ 0 <;> simp [hp, joyKeyActiveOrSync]
  have ha : (accelEvents d).filter joyKeyActiveOrSync = [] := by
    simp [accelEvents, joyKeyActiveOrSync]
  rw [ht, ha]
  simp only [joyEvents, e1, e2, e3, e4, e5, e6, e7, e8, e9, e10, e11, e12,
    e13, e14, e15, e16, e17, e18]
  simp [joyKeyActiveOrSync, hA]

/-- C8 witness: the concrete report with `data[2] = 0x80` encodes
exactly "A pressed" and yields the single active key `BTN_EAST`
followed by the joypad synchronize. -/
theorem C8_only_button_A_witness :
    buttons dC8 &&& BUTTON_A ≠ 0 ∧
    (decodeEvents dC8).filter joyKeyActiveOrSync =
      [Ev.key Dev.joy KeyCode.BTN_EAST (buttons dC8 &&& BUTTON_A),
       Ev.sync Dev.joy] :=
  ⟨by decide, C8_only_button_A dC8 (by decide) (by decide)⟩

end WiiU
